import Mathlib

/-!
Verification development for the smart-closet carousel system.

The Lean definitions below are shallow embeddings of the Python sources:
* `src/hardware/motor_controller.py` — `StepperMotorController.rotate_to_slot`
  and `MockStepperMotorController.rotate_to_slot`;
* `src/database/db.py` — `ClothingRepository.add_or_update_item`, `get_item`,
  `list_clothes`, `log_usage` over an explicit in-memory database state;
* `src/ml/recommendation.py` — the scoring helpers and `recommend_outfit`.

Python integers are embedded as `Int`.  Python `//` and `%` are floor
division and floor modulus; for a positive divisor (the only case reached
by the code, which guards `0 <= target_slot < slots` first) they coincide
with Lean's `/` (`Int.ediv`) and `%` (`Int.emod`).  The float comparison
`delta > slots / 2` (Python true division) is embedded exactly as the
rational comparison `2 * delta > slots` (exact, since an integer is being
compared against a half-integer of small magnitude).

Scores are IEEE-754 doubles in Python.  Two models are used.  `score_item`
is the specification-level, real-valued score (exact `ℚ`): the spec defines
the score as a sum of real constants.  `score_item_f` is the program-level
score: every float literal and every float addition is rounded to binary64
via `roundB64`, an exact model of round-to-nearest-even on the normal range
(scores lie within [-0.9, 3.8], far from overflow and subnormal
territory).  The two models agree on each summand but can disagree on
comparisons: exact ties may be strictly ordered after rounding, which is
exactly the divergence exhibited for the tie-break claim.
-/

namespace SmartCloset

/-! ### Motor controller (`src/hardware/motor_controller.py`) -/

/-- State of the real controller: configuration plus carousel orientation.
The GPIO pin map and step delay configure side-effecting I/O only and play
no role in the rotation arithmetic, so they are not part of the state. -/
structure StepperMotorController where
  steps_per_revolution : Int
  slots : Int
  current_slot : Int
deriving Repr, DecidableEq

/-- Observable outcome of a successful `rotate_to_slot` call: the number of
step pulses emitted by `_perform_steps`, the direction the DIR pin was set
to, and the updated controller state. -/
structure RotationResult where
  steps : Int
  direction_cw : Bool
  controller : StepperMotorController
deriving Repr, DecidableEq

/-- Message of the `ValueError` raised on an out-of-range target slot. -/
def invalidSlotMsg (slots target_slot : Int) : String :=
  "target_slot must be in [0, " ++ toString slots ++ "), got " ++ toString target_slot

/-- Embedding of `StepperMotorController.rotate_to_slot`.  The Python guard
`if not (0 <= target_slot < self.slots): raise ValueError(...)` becomes the
outer `if`; `delta > self.slots / 2` (true division) is the exact rational
test `2 * delta > slots`. -/
def StepperMotorController.rotate_to_slot (c : StepperMotorController)
    (target_slot : Int) : Except String RotationResult :=
  if 0 ≤ target_slot ∧ target_slot < c.slots then
    if 2 * ((target_slot - c.current_slot) % c.slots) > c.slots then
      Except.ok
        { steps := (c.slots - (target_slot - c.current_slot) % c.slots) *
            (c.steps_per_revolution / c.slots)
          direction_cw := false
          controller := { c with current_slot := target_slot } }
    else
      Except.ok
        { steps := ((target_slot - c.current_slot) % c.slots) *
            (c.steps_per_revolution / c.slots)
          direction_cw := true
          controller := { c with current_slot := target_slot } }
  else
    Except.error (invalidSlotMsg c.slots target_slot)

/-- What a caller of `rotate_to_slot` observes: the controller state
afterwards and the number of pulses emitted.  The `ValueError` is raised
before `_perform_steps` runs and before `current_slot` is assigned, so on
the error path the state is unchanged and zero pulses were emitted. -/
def StepperMotorController.run_rotate (c : StepperMotorController)
    (target_slot : Int) : StepperMotorController × Int :=
  match c.rotate_to_slot target_slot with
  | Except.ok res => (res.controller, res.steps)
  | Except.error _ => (c, 0)

/-- State of `MockStepperMotorController` (same fields; no GPIO). -/
structure MockStepperMotorController where
  steps_per_revolution : Int
  slots : Int
  current_slot : Int
deriving Repr, DecidableEq

/-- Outcome of the mock controller's `rotate_to_slot`: the logged step count
and direction string, and the updated state. -/
structure MockRotationResult where
  steps : Int
  direction : String
  controller : MockStepperMotorController
deriving Repr, DecidableEq

/-- Embedding of `MockStepperMotorController.rotate_to_slot`: identical
arithmetic, direction reported as the logged string, no pulses emitted. -/
def MockStepperMotorController.rotate_to_slot (c : MockStepperMotorController)
    (target_slot : Int) : Except String MockRotationResult :=
  if 0 ≤ target_slot ∧ target_slot < c.slots then
    if 2 * ((target_slot - c.current_slot) % c.slots) > c.slots then
      Except.ok
        { steps := (c.slots - (target_slot - c.current_slot) % c.slots) *
            (c.steps_per_revolution / c.slots)
          direction := "CCW"
          controller := { c with current_slot := target_slot } }
    else
      Except.ok
        { steps := ((target_slot - c.current_slot) % c.slots) *
            (c.steps_per_revolution / c.slots)
          direction := "CW"
          controller := { c with current_slot := target_slot } }
  else
    Except.error (invalidSlotMsg c.slots target_slot)

/-! ### Claims about the motor controller -/

/-- Claim C1: for every slot count `n ≥ 1`, `steps_per_revolution r ≥ 0`,
`current_slot ∈ [0, n)` and `target_slot ∈ [0, n)`, `rotate_to_slot`
succeeds, the emitted step count is the minimum of the clockwise cost
`delta * steps_per_slot` and the counter-clockwise cost
`(n - delta) * steps_per_slot` (so the chosen direction minimizes the
emitted steps), and the emitted step count is at most
`(r / n) * ceil(n / 2)` where `ceil(n / 2) = (n + 1) / 2`. -/
theorem rotate_to_slot_shortest_path (c : SmartCloset.StepperMotorController)
    (target_slot : Int) (hn : 1 ≤ c.slots) (hr : 0 ≤ c.steps_per_revolution)
    (hc0 : 0 ≤ c.current_slot) (hc1 : c.current_slot < c.slots)
    (ht0 : 0 ≤ target_slot) (ht1 : target_slot < c.slots) :
    ∃ res, c.rotate_to_slot target_slot = Except.ok res ∧
      res.steps =
        min (((target_slot - c.current_slot) % c.slots) *
              (c.steps_per_revolution / c.slots))
            ((c.slots - (target_slot - c.current_slot) % c.slots) *
              (c.steps_per_revolution / c.slots)) ∧
      (res.direction_cw = true →
        res.steps = ((target_slot - c.current_slot) % c.slots) *
          (c.steps_per_revolution / c.slots)) ∧
      (res.direction_cw = false →
        res.steps = (c.slots - (target_slot - c.current_slot) % c.slots) *
          (c.steps_per_revolution / c.slots)) ∧
      res.steps ≤ (c.steps_per_revolution / c.slots) * ((c.slots + 1) / 2) := by
  have hpos : (0 : Int) < c.slots := by omega
  have hd0 : 0 ≤ (target_slot - c.current_slot) % c.slots :=
    Int.emod_nonneg _ (by omega)
  have hd1 : (target_slot - c.current_slot) % c.slots < c.slots :=
    Int.emod_lt_of_pos _ hpos
  have hq : 0 ≤ c.steps_per_revolution / c.slots := Int.ediv_nonneg hr (by omega)
  by_cases h2 : 2 * ((target_slot - c.current_slot) % c.slots) > c.slots
  · refine ⟨RotationResult.mk ((c.slots - (target_slot - c.current_slot) % c.slots) *
        (c.steps_per_revolution / c.slots)) false
        { c with current_slot := target_slot }, ?_, ?_, ?_, ?_, ?_⟩
    · simp only [SmartCloset.StepperMotorController.rotate_to_slot,
        if_pos (And.intro ht0 ht1), if_pos h2]
    · exact (min_eq_right (mul_le_mul_of_nonneg_right (by omega) hq)).symm
    · intro h; simp at h
    · intro _; rfl
    · calc (c.slots - (target_slot - c.current_slot) % c.slots) *
            (c.steps_per_revolution / c.slots)
          ≤ ((c.slots + 1) / 2) * (c.steps_per_revolution / c.slots) :=
            mul_le_mul_of_nonneg_right (by omega) hq
        _ = (c.steps_per_revolution / c.slots) * ((c.slots + 1) / 2) :=
            mul_comm _ _
  · refine ⟨RotationResult.mk (((target_slot - c.current_slot) % c.slots) *
        (c.steps_per_revolution / c.slots)) true
        { c with current_slot := target_slot }, ?_, ?_, ?_, ?_, ?_⟩
    · simp only [SmartCloset.StepperMotorController.rotate_to_slot,
        if_pos (And.intro ht0 ht1), if_neg h2]
    · exact (min_eq_left (mul_le_mul_of_nonneg_right (by omega) hq)).symm
    · intro _; rfl
    · intro h; simp at h
    · calc ((target_slot - c.current_slot) % c.slots) *
            (c.steps_per_revolution / c.slots)
          ≤ ((c.slots + 1) / 2) * (c.steps_per_revolution / c.slots) :=
            mul_le_mul_of_nonneg_right (by omega) hq
        _ = (c.steps_per_revolution / c.slots) * ((c.slots + 1) / 2) :=
            mul_comm _ _

/-- Witness for C1: a concrete controller (512 steps/rev, 6 slots, at slot 1)
rotating to slot 5: delta is 4, so the counter-clockwise path of 2 slots
is taken, 170 steps, within the bound 85 * 3. -/
theorem rotate_to_slot_shortest_path_witness :
    ∃ res,
      SmartCloset.StepperMotorController.rotate_to_slot ⟨512, 6, 1⟩ 5 =
        Except.ok res ∧
      res.steps = min (((5 - 1) % 6) * (512 / 6)) ((6 - (5 - 1) % 6) * (512 / 6)) ∧
      (res.direction_cw = true → res.steps = ((5 - 1) % 6) * (512 / 6)) ∧
      (res.direction_cw = false → res.steps = (6 - (5 - 1) % 6) * (512 / 6)) ∧
      res.steps ≤ (512 / 6) * ((6 + 1) / 2) :=
  rotate_to_slot_shortest_path ⟨512, 6, 1⟩ 5 (by decide) (by decide) (by decide)
    (by decide) (by decide) (by decide)

/-- Claim C6: for an even slot count, when the normalized delta
`(target_slot - current_slot) mod slots` equals exactly `slots / 2`,
`rotate_to_slot` rotates clockwise with `delta * steps_per_slot` steps. -/
theorem rotate_to_slot_tie_clockwise (c : SmartCloset.StepperMotorController)
    (target_slot : Int) (heven : c.slots % 2 = 0)
    (ht0 : 0 ≤ target_slot) (ht1 : target_slot < c.slots)
    (hdelta : (target_slot - c.current_slot) % c.slots = c.slots / 2) :
    c.rotate_to_slot target_slot =
      Except.ok (SmartCloset.RotationResult.mk
        ((c.slots / 2) * (c.steps_per_revolution / c.slots)) true
        { c with current_slot := target_slot }) := by
  simp only [SmartCloset.StepperMotorController.rotate_to_slot,
    if_pos (And.intro ht0 ht1), hdelta]
  rw [if_neg (show ¬ 2 * (c.slots / 2) > c.slots by omega)]

/-- Witness for C6: 4 slots (even), 200 steps/rev, from slot 1 to slot 3:
delta is exactly 2 = 4 / 2, the clockwise branch is taken with 100 steps. -/
theorem rotate_to_slot_tie_clockwise_witness :
    SmartCloset.StepperMotorController.rotate_to_slot ⟨200, 4, 1⟩ 3 =
      Except.ok (SmartCloset.RotationResult.mk ((4 / 2) * (200 / 4)) true ⟨200, 4, 3⟩) :=
  rotate_to_slot_tie_clockwise ⟨200, 4, 1⟩ 3 (by decide) (by decide) (by decide)
    (by decide)

/-- Claim C7: for every `target_slot` outside `[0, slots)`, `rotate_to_slot`
fails with the invalid-slot error, emits no pulses, and leaves
`current_slot` (indeed the whole controller state) unchanged. -/
theorem rotate_to_slot_invalid_slot (c : SmartCloset.StepperMotorController)
    (target_slot : Int) (h : ¬ (0 ≤ target_slot ∧ target_slot < c.slots)) :
    c.rotate_to_slot target_slot =
      Except.error (SmartCloset.invalidSlotMsg c.slots target_slot) ∧
    c.run_rotate target_slot = (c, 0) := by
  constructor
  · simp only [SmartCloset.StepperMotorController.rotate_to_slot, if_neg h]
  · simp only [SmartCloset.StepperMotorController.run_rotate,
      SmartCloset.StepperMotorController.rotate_to_slot, if_neg h]

/-- Witness for C7: with 4 slots, `target_slot = 4` (= slot_count) is
rejected with the error message and the state is untouched. -/
theorem rotate_to_slot_invalid_slot_witness :
    SmartCloset.StepperMotorController.rotate_to_slot ⟨200, 4, 1⟩ 4 =
      Except.error (SmartCloset.invalidSlotMsg 4 4) ∧
    SmartCloset.StepperMotorController.run_rotate ⟨200, 4, 1⟩ 4 = (⟨200, 4, 1⟩, 0) :=
  rotate_to_slot_invalid_slot ⟨200, 4, 1⟩ 4 (by decide)

/-- Claim C8: for every valid slot `s`, rotating to `s` and then rotating to
`s` again emits zero steps on the second call and leaves `current_slot = s`. -/
theorem rotate_to_slot_idempotent (c : SmartCloset.StepperMotorController)
    (s : Int) (hs0 : 0 ≤ s) (hs1 : s < c.slots) :
    ∃ r1 r2, c.rotate_to_slot s = Except.ok r1 ∧
      r1.controller.current_slot = s ∧
      r1.controller.rotate_to_slot s = Except.ok r2 ∧
      r2.steps = 0 ∧ r2.controller.current_slot = s := by
  have hguard : 0 ≤ s ∧ s < c.slots := ⟨hs0, hs1⟩
  have hstep2 : ∀ c' : SmartCloset.StepperMotorController,
      c'.current_slot = s → c'.slots = c.slots →
      c'.rotate_to_slot s = Except.ok (SmartCloset.RotationResult.mk 0 true c') := by
    intro c' hcur hslots
    have hd : (s - c'.current_slot) % c'.slots = 0 := by
      rw [hcur, sub_self, Int.zero_emod]
    have hno : ¬ 2 * ((s - c'.current_slot) % c'.slots) > c'.slots := by
      rw [hd]; omega
    have : c'.rotate_to_slot s = Except.ok (SmartCloset.RotationResult.mk
        (((s - c'.current_slot) % c'.slots) * (c'.steps_per_revolution / c'.slots))
        true { c' with current_slot := s }) := by
      simp only [SmartCloset.StepperMotorController.rotate_to_slot,
        if_pos (And.intro hs0 (hslots ▸ hs1)), if_neg hno]
    rw [this, hd, zero_mul]
    have hc' : { c' with current_slot := s } = c' := by
      cases c'; simp_all
    rw [hc']
  by_cases h2 : 2 * ((s - c.current_slot) % c.slots) > c.slots
  · have h1 : c.rotate_to_slot s = Except.ok (SmartCloset.RotationResult.mk
        ((c.slots - (s - c.current_slot) % c.slots) * (c.steps_per_revolution / c.slots))
        false { c with current_slot := s }) := by
      simp only [SmartCloset.StepperMotorController.rotate_to_slot,
        if_pos hguard, if_pos h2]
    exact ⟨_, _, h1, rfl, hstep2 _ rfl rfl, rfl, rfl⟩
  · have h1 : c.rotate_to_slot s = Except.ok (SmartCloset.RotationResult.mk
        (((s - c.current_slot) % c.slots) * (c.steps_per_revolution / c.slots))
        true { c with current_slot := s }) := by
      simp only [SmartCloset.StepperMotorController.rotate_to_slot,
        if_pos hguard, if_neg h2]
    exact ⟨_, _, h1, rfl, hstep2 _ rfl rfl, rfl, rfl⟩

/-- Witness for C8: 200 steps/rev, 4 slots, starting at slot 0, rotating to
slot 3 twice: the second rotation emits zero steps and stays at slot 3. -/
theorem rotate_to_slot_idempotent_witness :
    ∃ r1 r2,
      SmartCloset.StepperMotorController.rotate_to_slot ⟨200, 4, 0⟩ 3 = Except.ok r1 ∧
      r1.controller.current_slot = 3 ∧
      r1.controller.rotate_to_slot 3 = Except.ok r2 ∧
      r2.steps = 0 ∧ r2.controller.current_slot = 3 :=
  rotate_to_slot_idempotent ⟨200, 4, 0⟩ 3 (by decide) (by decide)

/-- Claim C10: on any shared configuration `(steps_per_revolution, slots)`
and shared `current_slot`, the real controller and the mock controller agree
on every target: they reject exactly the same targets (with the same error
message), and on success they compute the same step count, corresponding
directions (`direction_cw = true` iff the mock logs `"CW"`), and the same
resulting `current_slot`. -/
theorem mock_controller_refines_real (r n cur target_slot : Int) :
    (∀ e, SmartCloset.StepperMotorController.rotate_to_slot ⟨r, n, cur⟩ target_slot =
        Except.error e ↔
      SmartCloset.MockStepperMotorController.rotate_to_slot ⟨r, n, cur⟩ target_slot =
        Except.error e) ∧
    (∀ a b,
      SmartCloset.StepperMotorController.rotate_to_slot ⟨r, n, cur⟩ target_slot =
        Except.ok a →
      SmartCloset.MockStepperMotorController.rotate_to_slot ⟨r, n, cur⟩ target_slot =
        Except.ok b →
      a.steps = b.steps ∧
      (a.direction_cw = true ↔ b.direction = "CW") ∧
      (a.direction_cw = false ↔ b.direction = "CCW") ∧
      a.controller.current_slot = b.controller.current_slot ∧
      a.controller.slots = b.controller.slots ∧
      a.controller.steps_per_revolution = b.controller.steps_per_revolution) := by
  by_cases hg : 0 ≤ target_slot ∧ target_slot < n
  · by_cases h2 : 2 * ((target_slot - cur) % n) > n
    · constructor
      · intro e
        simp [SmartCloset.StepperMotorController.rotate_to_slot,
          SmartCloset.MockStepperMotorController.rotate_to_slot, hg, h2]
      · intro a b ha hb
        simp only [SmartCloset.StepperMotorController.rotate_to_slot,
          if_pos hg, if_pos h2, Except.ok.injEq] at ha
        simp only [SmartCloset.MockStepperMotorController.rotate_to_slot,
          if_pos hg, if_pos h2, Except.ok.injEq] at hb
        subst ha; subst hb
        refine ⟨rfl, ?_, ?_, rfl, rfl, rfl⟩ <;> simp
    · constructor
      · intro e
        simp [SmartCloset.StepperMotorController.rotate_to_slot,
          SmartCloset.MockStepperMotorController.rotate_to_slot, hg, h2]
      · intro a b ha hb
        simp only [SmartCloset.StepperMotorController.rotate_to_slot,
          if_pos hg, if_neg h2, Except.ok.injEq] at ha
        simp only [SmartCloset.MockStepperMotorController.rotate_to_slot,
          if_pos hg, if_neg h2, Except.ok.injEq] at hb
        subst ha; subst hb
        refine ⟨rfl, ?_, ?_, rfl, rfl, rfl⟩ <;> simp
  · constructor
    · intro e
      simp [SmartCloset.StepperMotorController.rotate_to_slot,
        SmartCloset.MockStepperMotorController.rotate_to_slot, hg]
    · intro a b ha _
      simp only [SmartCloset.StepperMotorController.rotate_to_slot,
        if_neg hg] at ha
      exact absurd ha (by simp)

/-- Witness for C10: concrete agreement of real and mock controllers at
configuration (200 steps/rev, 4 slots, slot 1) rotating to slot 0: delta is
3, both take the 50-step counter-clockwise motion ending at slot 0. -/
theorem mock_controller_refines_real_witness :
    SmartCloset.StepperMotorController.rotate_to_slot ⟨200, 4, 1⟩ 0 =
      Except.ok (SmartCloset.RotationResult.mk 50 false ⟨200, 4, 0⟩) ∧
    SmartCloset.MockStepperMotorController.rotate_to_slot ⟨200, 4, 1⟩ 0 =
      Except.ok (SmartCloset.MockRotationResult.mk 50 "CCW" ⟨200, 4, 0⟩) ∧
    (50 : Int) = 50 ∧ ((false : Bool) = true ↔ "CCW" = "CW") := by
  have ha : SmartCloset.StepperMotorController.rotate_to_slot ⟨200, 4, 1⟩ 0 =
      Except.ok (SmartCloset.RotationResult.mk 50 false ⟨200, 4, 0⟩) := by rfl
  have hb : SmartCloset.MockStepperMotorController.rotate_to_slot ⟨200, 4, 1⟩ 0 =
      Except.ok (SmartCloset.MockRotationResult.mk 50 "CCW" ⟨200, 4, 0⟩) := by rfl
  have hmain := (mock_controller_refines_real 200 4 1 0).2 _ _ ha hb
  exact ⟨ha, hb, rfl, hmain.2.1⟩

/-! ### Database repository (`src/database/db.py`)

The SQLite tables are embedded as lists kept in rowid (insertion) order,
with the `AUTOINCREMENT` counters made explicit.  The wall-clock timestamp
produced by `_now()` is passed in as an explicit `now` argument. -/

/-- Row of the `clothing_items` table (dataclass `ClothingItem`). -/
structure ClothingItem where
  id : Nat
  slot : Int
  type : String
  color_hint : Option String
  last_worn_ts : Option String
  usage_count : Nat
  created_ts : String
  updated_ts : String
deriving Repr, DecidableEq

/-- Row of the `usage_history` table. -/
structure UsageRecord where
  id : Nat
  clothing_id : Nat
  worn_ts : String
deriving Repr, DecidableEq

/-- In-memory image of the SQLite database. -/
structure DBState where
  clothing_items : List ClothingItem
  usage_history : List UsageRecord
  next_clothing_id : Nat
  next_usage_id : Nat
deriving Repr, DecidableEq

/-- The freshly initialized database (`initialize_database`): both tables
empty, AUTOINCREMENT counters at 1. -/
def DBState.empty : DBState :=
  { clothing_items := [], usage_history := [], next_clothing_id := 1,
    next_usage_id := 1 }

/-- Embedding of `ClothingRepository.get_item`: `SELECT * FROM clothing_items
WHERE id = ?` fetching the first matching row, raising `ValueError` when
there is none. -/
def DBState.get_item (db : DBState) (item_id : Nat) : Except String ClothingItem :=
  match db.clothing_items.find? (fun r => r.id == item_id) with
  | some row => Except.ok row
  | none => Except.error ("Item with id " ++ toString item_id ++ " not found")

/-- The row built by `INSERT INTO clothing_items (slot, type, created_ts,
updated_ts) VALUES (?, ?, ?, ?)`: `usage_count` takes its schema default 0,
`color_hint` and `last_worn_ts` are NULL, and the id comes from
AUTOINCREMENT. -/
def newClothingItem (id : Nat) (slot : Int) (clothing_type now : String) :
    ClothingItem :=
  { id := id, slot := slot, type := clothing_type, color_hint := none,
    last_worn_ts := none, usage_count := 0, created_ts := now,
    updated_ts := now }

/-- Per-row effect of `UPDATE clothing_items SET type = ?, updated_ts = ?
WHERE slot = ?`. -/
def updateTypeRow (slot : Int) (clothing_type now : String) (r : ClothingItem) :
    ClothingItem :=
  if r.slot == slot then { r with type := clothing_type, updated_ts := now }
  else r

/-- Embedding of `ClothingRepository.add_or_update_item`: look up the first
row at `slot`; if present, `UPDATE clothing_items SET type = ?, updated_ts
= ? WHERE slot = ?` (all rows at that slot) and re-fetch by the found id;
otherwise insert a new row (usage_count defaults to 0, color_hint and
last_worn_ts to NULL) and fetch it by `lastrowid`. -/
def DBState.add_or_update_item (db : DBState) (slot : Int) (clothing_type : String)
    (now : String) : DBState × Except String ClothingItem :=
  match db.clothing_items.find? (fun r => r.slot == slot) with
  | some row =>
    let db' : DBState :=
      { db with clothing_items :=
          db.clothing_items.map (updateTypeRow slot clothing_type now) }
    (db', db'.get_item row.id)
  | none =>
    let newItem : ClothingItem :=
      newClothingItem db.next_clothing_id slot clothing_type now
    let db' : DBState :=
      { db with
          clothing_items := db.clothing_items ++ [newItem]
          next_clothing_id := db.next_clothing_id + 1 }
    (db', db'.get_item newItem.id)

/-- Embedding of `ClothingRepository.list_clothes`: `SELECT * FROM
clothing_items ORDER BY slot ASC, created_ts ASC`, a stable sort on the
two keys (rows tied on both keys stay in rowid order). -/
def DBState.list_clothes (db : DBState) : List ClothingItem :=
  db.clothing_items.mergeSort (fun a b =>
    decide (a.slot < b.slot ∨ (a.slot = b.slot ∧ a.created_ts ≤ b.created_ts)))

/-- Embedding of `ClothingRepository.log_usage`: unconditionally `INSERT
INTO usage_history (clothing_id, worn_ts) VALUES (?, ?)`, then `UPDATE
clothing_items SET last_worn_ts = ?, usage_count = usage_count + 1,
updated_ts = ? WHERE id = ?`.  The connection never enables SQLite
foreign-key enforcement and the code performs no existence check, so an
unknown `item_id` silently inserts an orphan usage row and updates no
clothing row; no error is ever raised. -/
def DBState.log_usage (db : DBState) (item_id : Nat) (now : String) : DBState :=
  { db with
      usage_history := db.usage_history ++
        [{ id := db.next_usage_id, clothing_id := item_id, worn_ts := now }]
      next_usage_id := db.next_usage_id + 1
      clothing_items := db.clothing_items.map (fun r =>
        if r.id == item_id then
          { r with
              last_worn_ts := some now
              usage_count := r.usage_count + 1
              updated_ts := now }
        else r) }

/-- Well-formedness invariant maintained by the repository: row ids are
pairwise distinct and below the AUTOINCREMENT counter. -/
def DBState.WF (db : DBState) : Prop :=
  db.clothing_items.Pairwise (fun a b => a.id ≠ b.id) ∧
  ∀ r ∈ db.clothing_items, r.id < db.next_clothing_id

/-! ### List helper lemmas for the repository proofs -/

/-- Mapping commutes with `find?` when the map does not change the tested
predicate. -/
theorem find?_map_of_pred {α : Type} (f : α → α) (p q : α → Bool)
    (h : ∀ x, p (f x) = q x) :
    ∀ l : List α, (l.map f).find? p = (l.find? q).map f := by
  intro l
  induction l with
  | nil => rfl
  | cons a t ih =>
    by_cases hqa : q a = true
    · rw [List.map_cons, List.find?_cons_of_pos _ ((h a).trans hqa),
        List.find?_cons_of_pos _ hqa]
      rfl
    · rw [List.map_cons, List.find?_cons_of_neg _ (by rw [h a]; exact hqa),
        List.find?_cons_of_neg _ hqa, ih]

/-- With pairwise-distinct ids, looking a member row up by its id finds
exactly that row. -/
theorem find?_id_of_mem_pairwise (l : List SmartCloset.ClothingItem)
    (hpw : l.Pairwise (fun a b => a.id ≠ b.id)) (r : SmartCloset.ClothingItem)
    (hr : r ∈ l) : l.find? (fun x => x.id == r.id) = some r := by
  induction l with
  | nil => cases hr
  | cons a t ih =>
    rcases List.pairwise_cons.mp hpw with ⟨ha, hpt⟩
    by_cases hid : (a.id == r.id) = true
    · have haid : a.id = r.id := by simpa using hid
      have : r = a := by
        rcases List.mem_cons.mp hr with h | h
        · exact h
        · exact absurd haid (ha r h)
      rw [List.find?_cons_of_pos (p := fun x : SmartCloset.ClothingItem => x.id == r.id) _ hid, this]
    · have : r ∈ t := by
        rcases List.mem_cons.mp hr with h | h
        · subst h; exact absurd (by simp) hid
        · exact h
      rw [List.find?_cons_of_neg (p := fun x : SmartCloset.ClothingItem => x.id == r.id) _ hid, ih hpt this]

/-- A `find?` over an append skips a prefix in which nothing matches. -/
theorem find?_append_left_none {α : Type} (l₁ l₂ : List α) (p : α → Bool)
    (h : l₁.find? p = none) : (l₁ ++ l₂).find? p = l₂.find? p := by
  rw [List.find?_append, h, Option.none_or]

/-- The type-update of a row does not change whether it sits at `slot`. -/
theorem updateTypeRow_slot_beq (slot : Int) (t now : String)
    (x : SmartCloset.ClothingItem) :
    ((SmartCloset.updateTypeRow slot t now x).slot == slot) = (x.slot == slot) := by
  by_cases h : (x.slot == slot) = true <;> simp [SmartCloset.updateTypeRow, h]

/-- The type-update of a row preserves its id. -/
theorem updateTypeRow_id (slot : Int) (t now : String)
    (x : SmartCloset.ClothingItem) :
    (SmartCloset.updateTypeRow slot t now x).id = x.id := by
  by_cases h : (x.slot == slot) = true <;> simp [SmartCloset.updateTypeRow, h]

/-- The type-update of a row preserves its id, `==`-test form. -/
theorem updateTypeRow_id_beq (slot : Int) (t now : String) (i : Nat)
    (x : SmartCloset.ClothingItem) :
    ((SmartCloset.updateTypeRow slot t now x).id == i) = (x.id == i) := by
  rw [updateTypeRow_id]

/-- The type-update of a row preserves its usage count. -/
theorem updateTypeRow_usage (slot : Int) (t now : String)
    (x : SmartCloset.ClothingItem) :
    (SmartCloset.updateTypeRow slot t now x).usage_count = x.usage_count := by
  by_cases h : (x.slot == slot) = true <;> simp [SmartCloset.updateTypeRow, h]

/-- The type-update of a row preserves `last_worn_ts`. -/
theorem updateTypeRow_last_worn (slot : Int) (t now : String)
    (x : SmartCloset.ClothingItem) :
    (SmartCloset.updateTypeRow slot t now x).last_worn_ts = x.last_worn_ts := by
  by_cases h : (x.slot == slot) = true <;> simp [SmartCloset.updateTypeRow, h]

/-- On a row that does sit at `slot`, the type-update writes the new type. -/
theorem updateTypeRow_type_of_slot (slot : Int) (t now : String)
    (x : SmartCloset.ClothingItem) (h : (x.slot == slot) = true) :
    (SmartCloset.updateTypeRow slot t now x).type = t := by
  simp [SmartCloset.updateTypeRow, h]

/-- Interface to `get_item`: a successful `find?` by id determines it. -/
theorem get_item_eq_of_find (db : SmartCloset.DBState) (i : Nat)
    (r : SmartCloset.ClothingItem)
    (h : db.clothing_items.find? (fun x => x.id == i) = some r) :
    db.get_item i = Except.ok r := by
  unfold SmartCloset.DBState.get_item
  rw [h]

/-- Claim C3: two upserts at the same slot preserve the record identity.
With a well-formed database, `add_or_update_item slot t1` followed by
`add_or_update_item slot t2` returns records `a` then `b` with `b.id =
a.id`, `b.usage_count = a.usage_count`, `b.last_worn_ts = a.last_worn_ts`
and `b.type = t2`; and when no record exists at `slot`, the first call
creates a record with `usage_count = 0`. -/
theorem upsert_twice_preserves_identity (db : SmartCloset.DBState) (slot : Int)
    (t1 t2 now1 now2 : String) (hwf : db.WF) :
    (∃ a b,
      (db.add_or_update_item slot t1 now1).2 = Except.ok a ∧
      ((db.add_or_update_item slot t1 now1).1.add_or_update_item slot t2 now2).2 =
        Except.ok b ∧
      b.id = a.id ∧ b.usage_count = a.usage_count ∧
      b.last_worn_ts = a.last_worn_ts ∧ b.type = t2) ∧
    (db.clothing_items.find? (fun r => r.slot == slot) = none →
      ∃ a, (db.add_or_update_item slot t1 now1).2 = Except.ok a ∧
        a.usage_count = 0) := by
  cases hfind : db.clothing_items.find? (fun r => r.slot == slot) with
  | some row =>
    have hrowslot : (row.slot == slot) = true :=
      List.find?_some (p := fun r : SmartCloset.ClothingItem => r.slot == slot) hfind
    have hmem : row ∈ db.clothing_items := List.mem_of_find?_eq_some hfind
    have hfid : db.clothing_items.find? (fun x => x.id == row.id) = some row :=
      find?_id_of_mem_pairwise _ hwf.1 _ hmem
    have hmap1 : (db.clothing_items.map (SmartCloset.updateTypeRow slot t1 now1)).find?
        (fun x => x.id == row.id) =
        some (SmartCloset.updateTypeRow slot t1 now1 row) := by
      rw [find?_map_of_pred _ _ _ (updateTypeRow_id_beq slot t1 now1 row.id)
        db.clothing_items, hfid]
      rfl
    have hfst1 : (db.add_or_update_item slot t1 now1).1 =
        { db with clothing_items :=
            db.clothing_items.map (SmartCloset.updateTypeRow slot t1 now1) } := by
      simp only [SmartCloset.DBState.add_or_update_item, hfind]
    have hsnd1 : (db.add_or_update_item slot t1 now1).2 =
        Except.ok (SmartCloset.updateTypeRow slot t1 now1 row) := by
      simp only [SmartCloset.DBState.add_or_update_item, hfind]
      exact get_item_eq_of_find _ _ _ hmap1
    have hfind2 : (db.clothing_items.map
        (SmartCloset.updateTypeRow slot t1 now1)).find? (fun r => r.slot == slot) =
        some (SmartCloset.updateTypeRow slot t1 now1 row) := by
      rw [find?_map_of_pred _ _ _ (updateTypeRow_slot_beq slot t1 now1)
        db.clothing_items, hfind]
      rfl
    have hmap2 : ((db.clothing_items.map (SmartCloset.updateTypeRow slot t1 now1)).map
        (SmartCloset.updateTypeRow slot t2 now2)).find?
        (fun x => x.id == (SmartCloset.updateTypeRow slot t1 now1 row).id) =
        some (SmartCloset.updateTypeRow slot t2 now2
          (SmartCloset.updateTypeRow slot t1 now1 row)) := by
      rw [find?_map_of_pred _ _ _
        (updateTypeRow_id_beq slot t2 now2
          (SmartCloset.updateTypeRow slot t1 now1 row).id) _,
        updateTypeRow_id slot t1 now1 row, hmap1]
      rfl
    have hsnd2 : ((db.add_or_update_item slot t1 now1).1.add_or_update_item
        slot t2 now2).2 =
        Except.ok (SmartCloset.updateTypeRow slot t2 now2
          (SmartCloset.updateTypeRow slot t1 now1 row)) := by
      rw [hfst1]
      simp only [SmartCloset.DBState.add_or_update_item, hfind2]
      exact get_item_eq_of_find _ _ _ hmap2
    refine ⟨⟨SmartCloset.updateTypeRow slot t1 now1 row,
      SmartCloset.updateTypeRow slot t2 now2
        (SmartCloset.updateTypeRow slot t1 now1 row),
      hsnd1, hsnd2, ?_, ?_, ?_, ?_⟩, ?_⟩
    · exact updateTypeRow_id _ _ _ _
    · exact updateTypeRow_usage _ _ _ _
    · exact updateTypeRow_last_worn _ _ _ _
    · exact updateTypeRow_type_of_slot _ _ _ _
        (by rw [updateTypeRow_slot_beq]; exact hrowslot)
    · intro hnone
      exact Option.noConfusion hnone
  | none =>
    have hnew : ∀ x ∈ db.clothing_items,
        ¬ ((fun y : SmartCloset.ClothingItem =>
          y.id == db.next_clothing_id) x) = true := by
      intro x hx
      have hlt := hwf.2 x hx
      simp only [beq_iff_eq]
      omega
    have hnomatch : db.clothing_items.find?
        (fun x => x.id == db.next_clothing_id) = none :=
      List.find?_eq_none.mpr hnew
    have hmap1 : (db.clothing_items ++
        [SmartCloset.newClothingItem db.next_clothing_id slot t1 now1]).find?
        (fun x => x.id == db.next_clothing_id) =
        some (SmartCloset.newClothingItem db.next_clothing_id slot t1 now1) := by
      rw [find?_append_left_none _ _ _ hnomatch]
      simp [SmartCloset.newClothingItem]
    have hsnd1 : (db.add_or_update_item slot t1 now1).2 =
        Except.ok (SmartCloset.newClothingItem db.next_clothing_id slot t1 now1) := by
      simp only [SmartCloset.DBState.add_or_update_item, hfind]
      exact get_item_eq_of_find _ _ _ hmap1
    have hfst1 : (db.add_or_update_item slot t1 now1).1 =
        { db with
            clothing_items := db.clothing_items ++
              [SmartCloset.newClothingItem db.next_clothing_id slot t1 now1]
            next_clothing_id := db.next_clothing_id + 1 } := by
      simp only [SmartCloset.DBState.add_or_update_item, hfind]
    have hfind2 : (db.clothing_items ++
        [SmartCloset.newClothingItem db.next_clothing_id slot t1 now1]).find?
        (fun r => r.slot == slot) =
        some (SmartCloset.newClothingItem db.next_clothing_id slot t1 now1) := by
      rw [find?_append_left_none _ _ _ hfind]
      simp [SmartCloset.newClothingItem]
    have hmap2 : ((db.clothing_items ++
        [SmartCloset.newClothingItem db.next_clothing_id slot t1 now1]).map
        (SmartCloset.updateTypeRow slot t2 now2)).find?
        (fun x => x.id ==
          (SmartCloset.newClothingItem db.next_clothing_id slot t1 now1).id) =
        some (SmartCloset.updateTypeRow slot t2 now2
          (SmartCloset.newClothingItem db.next_clothing_id slot t1 now1)) := by
      rw [find?_map_of_pred _ _ _ (updateTypeRow_id_beq slot t2 now2 _) _]
      rw [show (SmartCloset.newClothingItem db.next_clothing_id slot t1 now1).id =
        db.next_clothing_id from rfl, hmap1]
      rfl
    have hsnd2 : ((db.add_or_update_item slot t1 now1).1.add_or_update_item
        slot t2 now2).2 =
        Except.ok (SmartCloset.updateTypeRow slot t2 now2
          (SmartCloset.newClothingItem db.next_clothing_id slot t1 now1)) := by
      rw [hfst1]
      simp only [SmartCloset.DBState.add_or_update_item, hfind2]
      exact get_item_eq_of_find _ _ _ hmap2
    refine ⟨⟨_, _, hsnd1, hsnd2, ?_, ?_, ?_, ?_⟩, fun _ => ⟨_, hsnd1, rfl⟩⟩
    · exact updateTypeRow_id _ _ _ _
    · exact updateTypeRow_usage _ _ _ _
    · exact updateTypeRow_last_worn _ _ _ _
    · exact updateTypeRow_type_of_slot _ _ _ _
        (by simp [SmartCloset.newClothingItem])

/-- Witness for C3: on the freshly initialized database, upserting slot 2 as
a shirt and then as a jacket keeps id and usage data and ends as a jacket. -/
theorem upsert_twice_preserves_identity_witness :
    (∃ a b,
      (SmartCloset.DBState.empty.add_or_update_item 2 "shirt" "t1").2 =
        Except.ok a ∧
      ((SmartCloset.DBState.empty.add_or_update_item 2 "shirt"
          "t1").1.add_or_update_item 2 "jacket" "t2").2 = Except.ok b ∧
      b.id = a.id ∧ b.usage_count = a.usage_count ∧
      b.last_worn_ts = a.last_worn_ts ∧ b.type = "jacket") ∧
    (SmartCloset.DBState.empty.clothing_items.find? (fun r => r.slot == 2) =
        none →
      ∃ a, (SmartCloset.DBState.empty.add_or_update_item 2 "shirt" "t1").2 =
        Except.ok a ∧ a.usage_count = 0) :=
  upsert_twice_preserves_identity SmartCloset.DBState.empty 2 "shirt" "jacket"
    "t1" "t2" ⟨List.Pairwise.nil, by simp [SmartCloset.DBState.empty]⟩

/-- Claim C2, checked against the code.  The first conjunct shows the
positive half: on an existing id, `log_usage` appends exactly one usage
event with the current timestamp, increments `usage_count` by exactly 1,
sets `last_worn_ts` to that timestamp and refreshes `updated_ts`.  The
second conjunct shows the error half FAILS in the code: on a database with
no clothing items, `log_usage 99` raises nothing — it silently appends an
orphan usage event referencing the unknown id 99 and updates no record,
although the schema declares `usage_history.clothing_id` as a foreign key
into `clothing_items` and the spec requires a `NotFoundError`. -/
theorem log_usage_missing_notfound_check :
    (SmartCloset.DBState.log_usage
        ⟨[⟨1, 0, "shirt", none, none, 0, "t0", "t0"⟩], [], 2, 1⟩ 1 "t1" =
      ⟨[⟨1, 0, "shirt", none, some "t1", 1, "t0", "t1"⟩], [⟨1, 1, "t1"⟩], 2, 2⟩) ∧
    (SmartCloset.DBState.log_usage SmartCloset.DBState.empty 99 "t1" =
      ⟨[], [⟨1, 99, "t1"⟩], 1, 2⟩) :=
  ⟨rfl, rfl⟩

/-! ### Recommendation engine (`src/ml/recommendation.py`)

Scores are Python floats.  `base_score_for_type`, `mood_modifier`,
`weather_modifier`, `recency_penalty` and `score_item` below are the
specification-level reading with exact rational constants; the
program-level binary64 computation is modeled separately by the `_f`
variants further down, built on the exact rounding function `roundB64`. -/

/-- `TOP_TYPES` (membership-only set). -/
def TOP_TYPES : List String := ["shirt", "jacket", "tshirt"]

/-- `BOTTOM_TYPES` (membership-only set). -/
def BOTTOM_TYPES : List String := ["pants", "skirt", "shorts"]

/-- A `{top, bottom}` outfit as returned by `recommend_outfit`. -/
structure Outfit where
  top : ClothingItem
  bottom : ClothingItem
deriving Repr, DecidableEq

/-- Embedding of `RecommenderEngine._base_score_for_type`. -/
def base_score_for_type (clothing_type occasion : String) : ℚ :=
  let score : ℚ := 1.0
  if occasion = "formal" then
    (if clothing_type ∈ (["shirt", "jacket", "pants"] : List String) then
      score + 1.0 else score)
  else if occasion = "party" then
    (if clothing_type ∈ (["jacket", "skirt"] : List String) then
      score + 1.0 else score)
  else if occasion = "sports" then
    (if clothing_type ∈ (["tshirt", "shorts"] : List String) then
      score + 1.0 else score)
  else score

/-- Embedding of `RecommenderEngine._mood_modifier`. -/
def mood_modifier (mood : String) : ℚ :=
  if mood = "happy" then 0.3
  else if mood = "tired" then -0.1
  else if mood = "energetic" then 0.5
  else 0.0

/-- Embedding of `RecommenderEngine._weather_modifier`. -/
def weather_modifier (weather clothing_type : String) : ℚ :=
  if weather = "cold" ∧ clothing_type = "jacket" then 1.0
  else if weather = "hot" ∧ clothing_type ∈ (["jacket", "pants"] : List String) then
    -0.5
  else 0.0

/-- Embedding of `RecommenderEngine._recency_penalty`. -/
def recency_penalty (usage_count : Nat) : ℚ :=
  if usage_count = 0 then 0.5
  else if usage_count < 3 then 0.2
  else if usage_count < 10 then 0.0
  else -0.3

/-- Embedding of `RecommenderEngine._score_item`; `time_of_day` is accepted
and ignored, exactly as in the source (reserved for future refinement). -/
def score_item (item : ClothingItem) (mood occasion weather time_of_day : String) :
    ℚ :=
  base_score_for_type item.type occasion + mood_modifier mood +
    weather_modifier weather item.type + recency_penalty item.usage_count

/-- One step of the best-tracking in the `recommend_outfit` loop:
`if item["type"] in TYPES: if best is None or s > best[0]: best = (s, item)`. -/
def updBest (score : ClothingItem → ℚ) (keep : ClothingItem → Bool)
    (best : Option (ℚ × ClothingItem)) (item : ClothingItem) :
    Option (ℚ × ClothingItem) :=
  if keep item then
    match best with
    | none => some (score item, item)
    | some p => if score item > p.1 then some (score item, item) else best
  else best

/-- Embedding of `RecommenderEngine.recommend_outfit` applied to the list
returned by `list_clothes`: early `None` on an empty list, one pass
tracking the best top and best bottom, and `None` unless both exist. -/
def recommend_outfit (items : List ClothingItem)
    (mood occasion weather time_of_day : String) : Option Outfit :=
  if items.isEmpty then none
  else
    match items.foldl (fun bests item =>
        (updBest (fun i => score_item i mood occasion weather time_of_day)
          (fun i => TOP_TYPES.contains i.type) bests.1 item,
         updBest (fun i => score_item i mood occasion weather time_of_day)
          (fun i => BOTTOM_TYPES.contains i.type) bests.2 item))
      (none, none) with
    | (some t, some b) => some ⟨t.2, b.2⟩
    | (some _, none) => none
    | (none, _) => none

/-- First-encountered maximum of a filtered list, by head recursion: the
head survives against the best of the tail unless the tail's best is
strictly greater.  This is the specification-side reading of the loop. -/
def bestOf (score : ClothingItem → ℚ) (keep : ClothingItem → Bool) :
    List ClothingItem → Option (ℚ × ClothingItem)
  | [] => none
  | i :: rest =>
    match bestOf score keep rest with
    | none => if keep i then some (score i, i) else none
    | some q =>
      if keep i then (if score i < q.1 then some q else some (score i, i))
      else some q

/-! ### Binary64 model of the score computation

Python computes scores with IEEE-754 double arithmetic.  A double is an
exact rational; on the normal range (no overflow, no subnormals — all
scores and their partial sums lie within [-3, 4] in magnitude and are far
above the subnormal threshold) a binary64 operation is the exact rational
result rounded to 53 significant bits, to nearest, ties to even.
`roundB64` is that rounding map on `ℚ`, and `fadd` is binary64 addition.
The `_f` scoring functions mirror the Python functions with every float
literal and every `+=` rounded. -/

/-- Round a rational scaled into mantissa position (`[2^52, 2^53)` for a
normal input) to the nearest integer, ties to even. -/
def roundMantissa (m : ℚ) : Int :=
  if m - ⌊m⌋ > 1/2 then ⌊m⌋ + 1
  else if m - ⌊m⌋ < 1/2 then ⌊m⌋
  else if ⌊m⌋ % 2 = 0 then ⌊m⌋ else ⌊m⌋ + 1

/-- Round a rational to the nearest binary64 value (normal range: overflow
and subnormals are not modeled, as no score computation reaches them). -/
def roundB64 (q : ℚ) : ℚ :=
  if q = 0 then 0
  else if q < 0 then
    -((roundMantissa (-q / 2 ^ (Int.log 2 (-q) - 52)) : ℚ) *
      2 ^ (Int.log 2 (-q) - 52))
  else
    (roundMantissa (q / 2 ^ (Int.log 2 q - 52)) : ℚ) *
      2 ^ (Int.log 2 q - 52)

/-- Binary64 addition: the exact sum, rounded. -/
def fadd (x y : ℚ) : ℚ := roundB64 (x + y)

/-- `_base_score_for_type` under binary64: the literal `1.0` and the sum
`1.0 + 1.0` are exactly representable, but the rounding is applied anyway
to mirror the program. -/
def base_score_for_type_f (clothing_type occasion : String) : ℚ :=
  let score : ℚ := roundB64 1.0
  if occasion = "formal" then
    (if clothing_type ∈ (["shirt", "jacket", "pants"] : List String) then
      fadd score (roundB64 1.0) else score)
  else if occasion = "party" then
    (if clothing_type ∈ (["jacket", "skirt"] : List String) then
      fadd score (roundB64 1.0) else score)
  else if occasion = "sports" then
    (if clothing_type ∈ (["tshirt", "shorts"] : List String) then
      fadd score (roundB64 1.0) else score)
  else score

/-- `_mood_modifier` under binary64: each decimal literal denotes its
nearest double. -/
def mood_modifier_f (mood : String) : ℚ :=
  if mood = "happy" then roundB64 0.3
  else if mood = "tired" then roundB64 (-0.1)
  else if mood = "energetic" then roundB64 0.5
  else roundB64 0.0

/-- `_weather_modifier` under binary64. -/
def weather_modifier_f (weather clothing_type : String) : ℚ :=
  if weather = "cold" ∧ clothing_type = "jacket" then roundB64 1.0
  else if weather = "hot" ∧ clothing_type ∈ (["jacket", "pants"] : List String) then
    roundB64 (-0.5)
  else roundB64 0.0

/-- `_recency_penalty` under binary64. -/
def recency_penalty_f (usage_count : Nat) : ℚ :=
  if usage_count = 0 then roundB64 0.5
  else if usage_count < 3 then roundB64 0.2
  else if usage_count < 10 then roundB64 0.0
  else roundB64 (-0.3)

/-- `_score_item` under binary64: the Python accumulation `score = base;
score += mood; score += weather; score += recency` is a left-nested chain
of binary64 additions. -/
def score_item_f (item : ClothingItem)
    (mood occasion weather time_of_day : String) : ℚ :=
  fadd (fadd (fadd (base_score_for_type_f item.type occasion)
    (mood_modifier_f mood)) (weather_modifier_f weather item.type))
    (recency_penalty_f item.usage_count)

/-- `recommend_outfit` under binary64 scoring: the same loop as
`recommend_outfit`, comparing the scores the program actually computes. -/
def recommend_outfit_f (items : List ClothingItem)
    (mood occasion weather time_of_day : String) : Option Outfit :=
  if items.isEmpty then none
  else
    match items.foldl (fun bests item =>
        (updBest (fun i => score_item_f i mood occasion weather time_of_day)
          (fun i => TOP_TYPES.contains i.type) bests.1 item,
         updBest (fun i => score_item_f i mood occasion weather time_of_day)
          (fun i => BOTTOM_TYPES.contains i.type) bests.2 item))
      (none, none) with
    | (some t, some b) => some ⟨t.2, b.2⟩
    | (some _, none) => none
    | (none, _) => none

/-- The paired fold of `recommend_outfit` splits into two independent
single-category folds. -/
theorem foldl_pair_eq (sc : SmartCloset.ClothingItem → ℚ)
    (kT kB : SmartCloset.ClothingItem → Bool) (l : List SmartCloset.ClothingItem) :
    ∀ bt bb : Option (ℚ × SmartCloset.ClothingItem),
      l.foldl (fun bests item =>
        (SmartCloset.updBest sc kT bests.1 item,
         SmartCloset.updBest sc kB bests.2 item)) (bt, bb) =
      (l.foldl (SmartCloset.updBest sc kT) bt,
       l.foldl (SmartCloset.updBest sc kB) bb) := by
  induction l with
  | nil => intro bt bb; rfl
  | cons i rest ih =>
    intro bt bb
    rw [List.foldl_cons, List.foldl_cons, List.foldl_cons]
    exact ih _ _

/-- Folding `updBest` from a present accumulator merges the accumulator
with the best of the remaining list, later elements winning only on a
strictly greater score. -/
theorem foldl_updBest_some (sc : SmartCloset.ClothingItem → ℚ)
    (keep : SmartCloset.ClothingItem → Bool) (l : List SmartCloset.ClothingItem) :
    ∀ (s0 : ℚ) (i0 : SmartCloset.ClothingItem),
      l.foldl (SmartCloset.updBest sc keep) (some (s0, i0)) =
      (match SmartCloset.bestOf sc keep l with
       | none => some (s0, i0)
       | some p => if s0 < p.1 then some p else some (s0, i0)) := by
  induction l with
  | nil => intro s0 i0; rfl
  | cons i rest ih =>
    intro s0 i0
    rw [List.foldl_cons]
    by_cases hk : keep i = true
    · by_cases hgt : sc i > s0
      · have hstep : SmartCloset.updBest sc keep (some (s0, i0)) i =
            some (sc i, i) := by
          simp [SmartCloset.updBest, hk, hgt]
        rw [hstep, ih]
        cases hb : SmartCloset.bestOf sc keep rest with
        | none =>
          simp only [SmartCloset.bestOf, hb, hk, if_true]
          rw [if_pos hgt]
        | some p =>
          by_cases hpi : sc i < p.1
          · simp only [SmartCloset.bestOf, hb, hk, if_true, if_pos hpi]
            rw [if_pos (lt_trans hgt hpi)]
          · simp only [SmartCloset.bestOf, hb, hk, if_true, if_neg hpi]
            rw [if_pos hgt]
      · have hstep : SmartCloset.updBest sc keep (some (s0, i0)) i =
            some (s0, i0) := by
          simp [SmartCloset.updBest, hk, hgt]
        rw [hstep, ih]
        have hle : sc i ≤ s0 := not_lt.mp hgt
        cases hb : SmartCloset.bestOf sc keep rest with
        | none =>
          simp only [SmartCloset.bestOf, hb, hk, if_true]
          rw [if_neg (not_lt.mpr hle)]
        | some p =>
          by_cases hpi : sc i < p.1
          · simp only [SmartCloset.bestOf, hb, hk, if_true, if_pos hpi]
          · simp only [SmartCloset.bestOf, hb, hk, if_true, if_neg hpi]
            have : p.1 ≤ s0 := le_trans (not_lt.mp hpi) hle
            rw [if_neg (not_lt.mpr this), if_neg (not_lt.mpr hle)]
    · have hstep : SmartCloset.updBest sc keep (some (s0, i0)) i =
          some (s0, i0) := by
        simp [SmartCloset.updBest, hk]
      rw [hstep, ih]
      cases hb : SmartCloset.bestOf sc keep rest with
      | none => simp [SmartCloset.bestOf, hb, hk]
      | some p => simp [SmartCloset.bestOf, hb, hk]

/-- Folding `updBest` from `none` computes exactly `bestOf`. -/
theorem foldl_updBest_none (sc : SmartCloset.ClothingItem → ℚ)
    (keep : SmartCloset.ClothingItem → Bool) (l : List SmartCloset.ClothingItem) :
    l.foldl (SmartCloset.updBest sc keep) none = SmartCloset.bestOf sc keep l := by
  induction l with
  | nil => rfl
  | cons i rest ih =>
    rw [List.foldl_cons]
    by_cases hk : keep i = true
    · have hstep : SmartCloset.updBest sc keep none i = some (sc i, i) := by
        simp [SmartCloset.updBest, hk]
      rw [hstep, foldl_updBest_some]
      cases hb : SmartCloset.bestOf sc keep rest with
      | none => simp only [SmartCloset.bestOf, hb, hk, if_true]
      | some p => simp only [SmartCloset.bestOf, hb, hk, if_true]
    · have hstep : SmartCloset.updBest sc keep none i = none := by
        simp [SmartCloset.updBest, hk]
      rw [hstep, ih]
      cases hb : SmartCloset.bestOf sc keep rest with
      | none => simp [SmartCloset.bestOf, hb, hk]
      | some p => simp [SmartCloset.bestOf, hb, hk]

/-- `bestOf` is `none` exactly when no element passes the filter. -/
theorem bestOf_eq_none_iff (sc : SmartCloset.ClothingItem → ℚ)
    (keep : SmartCloset.ClothingItem → Bool) (l : List SmartCloset.ClothingItem) :
    SmartCloset.bestOf sc keep l = none ↔ ∀ i ∈ l, keep i = false := by
  induction l with
  | nil => simp [SmartCloset.bestOf]
  | cons i rest ih =>
    by_cases hk : keep i = true
    · cases hb : SmartCloset.bestOf sc keep rest with
      | none =>
        simp only [SmartCloset.bestOf, hb, hk, if_true]
        constructor
        · intro h; exact Option.noConfusion h
        · intro h
          have := h i (List.mem_cons_self i rest)
          rw [hk] at this
          exact Bool.noConfusion this
      | some p =>
        simp only [SmartCloset.bestOf, hb, hk, if_true]
        constructor
        · intro h
          by_cases hpi : sc i < p.1 <;> simp [hpi] at h
        · intro h
          have := h i (List.mem_cons_self i rest)
          rw [hk] at this
          exact Bool.noConfusion this
    · have hkf : keep i = false := Bool.not_eq_true _ ▸ Bool.of_not_eq_true hk
      cases hb : SmartCloset.bestOf sc keep rest with
      | none =>
        simp only [SmartCloset.bestOf, hb, hk, if_false]
        constructor
        · intro _ x hx
          rcases List.mem_cons.mp hx with h | h
          · subst h; exact hkf
          · exact (ih.mp hb) x h
        · intro _; rfl
      | some p =>
        simp only [SmartCloset.bestOf, hb, hk, if_false]
        constructor
        · intro h; exact Option.noConfusion h
        · intro h
          have : SmartCloset.bestOf sc keep rest = none :=
            ih.mpr (fun x hx => h x (List.mem_cons_of_mem i hx))
          rw [hb] at this
          exact Option.noConfusion this

/-- Specification of a successful `bestOf`: the winner is a kept element
with its own score, no kept element scores strictly higher, and every kept
element strictly before it scores strictly lower (first-encountered
tie-break). -/
theorem bestOf_spec (sc : SmartCloset.ClothingItem → ℚ)
    (keep : SmartCloset.ClothingItem → Bool) (l : List SmartCloset.ClothingItem)
    (p : ℚ × SmartCloset.ClothingItem)
    (h : SmartCloset.bestOf sc keep l = some p) :
    p.1 = sc p.2 ∧ keep p.2 = true ∧
    (∀ x ∈ l, keep x = true → sc x ≤ p.1) ∧
    ∃ l₁ l₂, l = l₁ ++ p.2 :: l₂ ∧
      ∀ x ∈ l₁, keep x = true → sc x < p.1 := by
  induction l generalizing p with
  | nil => exact Option.noConfusion h
  | cons i rest ih =>
    by_cases hk : keep i = true
    · cases hb : SmartCloset.bestOf sc keep rest with
      | none =>
        have h' : some (sc i, i) = some p := by
          rw [SmartCloset.bestOf, hb] at h
          simpa [hk] using h
        have hp : (sc i, i) = p := Option.some.inj h'
        subst hp
        refine ⟨rfl, hk, ?_, [], rest, rfl, by simp⟩
        intro x hx hkx
        rcases List.mem_cons.mp hx with hxi | hxr
        · subst hxi; exact le_refl _
        · have := (bestOf_eq_none_iff sc keep rest).mp hb x hxr
          rw [hkx] at this
          exact Bool.noConfusion this
      | some q =>
        have h' : (if sc i < q.1 then some q else some (sc i, i)) = some p := by
          rw [SmartCloset.bestOf, hb] at h
          simpa [hk] using h
        rcases ih q hb with ⟨hq1, hq2, hqmax, l₁, l₂, hdec, hpre⟩
        by_cases hpi : sc i < q.1
        · rw [if_pos hpi] at h'
          have hp : q = p := Option.some.inj h'
          subst hp
          refine ⟨hq1, hq2, ?_, i :: l₁, l₂, by rw [hdec]; rfl, ?_⟩
          · intro x hx hkx
            rcases List.mem_cons.mp hx with hxi | hxr
            · subst hxi; exact le_of_lt hpi
            · exact hqmax x hxr hkx
          · intro x hx hkx
            rcases List.mem_cons.mp hx with hxi | hxr
            · subst hxi; exact hpi
            · exact hpre x hxr hkx
        · rw [if_neg hpi] at h'
          have hp : (sc i, i) = p := Option.some.inj h'
          subst hp
          refine ⟨rfl, hk, ?_, [], rest, rfl, by simp⟩
          intro x hx hkx
          rcases List.mem_cons.mp hx with hxi | hxr
          · subst hxi; exact le_refl _
          · exact le_trans (hqmax x hxr hkx) (not_lt.mp hpi)
    · cases hb : SmartCloset.bestOf sc keep rest with
      | none =>
        rw [SmartCloset.bestOf, hb] at h
        simp [hk] at h
      | some q =>
        have h' : some q = some p := by
          rw [SmartCloset.bestOf, hb] at h
          simpa [hk] using h
        have hp : q = p := Option.some.inj h'
        subst hp
        rcases ih q hb with ⟨hq1, hq2, hqmax, l₁, l₂, hdec, hpre⟩
        have hkf : keep i = false := Bool.not_eq_true _ ▸ Bool.of_not_eq_true hk
        refine ⟨hq1, hq2, ?_, i :: l₁, l₂, by rw [hdec]; rfl, ?_⟩
        · intro x hx hkx
          rcases List.mem_cons.mp hx with hxi | hxr
          · subst hxi; rw [hkf] at hkx; exact Bool.noConfusion hkx
          · exact hqmax x hxr hkx
        · intro x hx hkx
          rcases List.mem_cons.mp hx with hxi | hxr
          · subst hxi; rw [hkf] at hkx; exact Bool.noConfusion hkx
          · exact hpre x hxr hkx

/-- The loop of `recommend_outfit_f` computes `bestOf` per category over
the binary64 scores. -/
theorem recommend_outfit_f_eq (items : List SmartCloset.ClothingItem)
    (mood occasion weather tod : String) :
    SmartCloset.recommend_outfit_f items mood occasion weather tod =
      (match
        (SmartCloset.bestOf (fun i => SmartCloset.score_item_f i mood occasion weather tod)
          (fun i => SmartCloset.TOP_TYPES.contains i.type) items,
         SmartCloset.bestOf (fun i => SmartCloset.score_item_f i mood occasion weather tod)
          (fun i => SmartCloset.BOTTOM_TYPES.contains i.type) items) with
       | (some t, some b) => some ⟨t.2, b.2⟩
       | (some _, none) => none
       | (none, _) => none) := by
  cases items with
  | nil => rfl
  | cons i rest =>
    unfold SmartCloset.recommend_outfit_f
    rw [if_neg (by simp)]
    rw [foldl_pair_eq, foldl_updBest_none, foldl_updBest_none]

/-- Claim C4, amended: `recommend_outfit` returns a pair exactly when the
inventory holds at least one TOP-typed and one BOTTOM-typed record, and
otherwise returns `none`; on success, each returned item is from its
category, no record of that category has a strictly higher computed
(IEEE-754 double) score, and every record of that category occurring
strictly earlier in the list ordering has a strictly lower computed score
(first-encountered tie-break on the computed scores; records tied in
exact real score may be resolved either way when rounding orders their
computed scores differently). -/
theorem recommend_outfit_f_best_pair (items : List SmartCloset.ClothingItem)
    (mood occasion weather tod : String) :
    ((SmartCloset.recommend_outfit_f items mood occasion weather tod).isSome ↔
      ((∃ i ∈ items, SmartCloset.TOP_TYPES.contains i.type = true) ∧
       (∃ i ∈ items, SmartCloset.BOTTOM_TYPES.contains i.type = true))) ∧
    (∀ o, SmartCloset.recommend_outfit_f items mood occasion weather tod = some o →
      (SmartCloset.TOP_TYPES.contains o.top.type = true ∧
       (∀ x ∈ items, SmartCloset.TOP_TYPES.contains x.type = true →
          SmartCloset.score_item_f x mood occasion weather tod ≤
            SmartCloset.score_item_f o.top mood occasion weather tod) ∧
       ∃ l₁ l₂, items = l₁ ++ o.top :: l₂ ∧
         ∀ x ∈ l₁, SmartCloset.TOP_TYPES.contains x.type = true →
           SmartCloset.score_item_f x mood occasion weather tod <
             SmartCloset.score_item_f o.top mood occasion weather tod) ∧
      (SmartCloset.BOTTOM_TYPES.contains o.bottom.type = true ∧
       (∀ x ∈ items, SmartCloset.BOTTOM_TYPES.contains x.type = true →
          SmartCloset.score_item_f x mood occasion weather tod ≤
            SmartCloset.score_item_f o.bottom mood occasion weather tod) ∧
       ∃ l₁ l₂, items = l₁ ++ o.bottom :: l₂ ∧
         ∀ x ∈ l₁, SmartCloset.BOTTOM_TYPES.contains x.type = true →
           SmartCloset.score_item_f x mood occasion weather tod <
             SmartCloset.score_item_f o.bottom mood occasion weather tod)) := by
  have heq := recommend_outfit_f_eq items mood occasion weather tod
  cases hT : SmartCloset.bestOf
      (fun i => SmartCloset.score_item_f i mood occasion weather tod)
      (fun i => SmartCloset.TOP_TYPES.contains i.type) items with
  | none =>
    rw [hT] at heq
    have hempty := (bestOf_eq_none_iff _ _ items).mp hT
    cases hB : SmartCloset.bestOf
        (fun i => SmartCloset.score_item_f i mood occasion weather tod)
        (fun i => SmartCloset.BOTTOM_TYPES.contains i.type) items with
    | none =>
      rw [hB] at heq
      constructor
      · rw [heq]
        simp only [Option.isSome_none, Bool.false_eq_true, false_iff]
        rintro ⟨⟨i, hi, hki⟩, -⟩
        have := hempty i hi
        rw [hki] at this
        exact Bool.noConfusion this
      · intro o ho
        rw [heq] at ho
        exact Option.noConfusion ho
    | some pb =>
      rw [hB] at heq
      constructor
      · rw [heq]
        simp only [Option.isSome_none, Bool.false_eq_true, false_iff]
        rintro ⟨⟨i, hi, hki⟩, -⟩
        have := hempty i hi
        rw [hki] at this
        exact Bool.noConfusion this
      · intro o ho
        rw [heq] at ho
        exact Option.noConfusion ho
  | some pt =>
    rw [hT] at heq
    cases hB : SmartCloset.bestOf
        (fun i => SmartCloset.score_item_f i mood occasion weather tod)
        (fun i => SmartCloset.BOTTOM_TYPES.contains i.type) items with
    | none =>
      rw [hB] at heq
      have hempty := (bestOf_eq_none_iff _ _ items).mp hB
      constructor
      · rw [heq]
        simp only [Option.isSome_none, Bool.false_eq_true, false_iff]
        rintro ⟨-, ⟨i, hi, hki⟩⟩
        have := hempty i hi
        rw [hki] at this
        exact Bool.noConfusion this
      · intro o ho
        rw [heq] at ho
        exact Option.noConfusion ho
    | some pb =>
      rw [hB] at heq
      rcases bestOf_spec _ _ items pt hT with ⟨ht1, ht2, htmax, tl₁, tl₂, htdec, htpre⟩
      rcases bestOf_spec _ _ items pb hB with ⟨hb1, hb2, hbmax, bl₁, bl₂, hbdec, hbpre⟩
      constructor
      · rw [heq]
        simp only [Option.isSome_some, true_iff]
        constructor
        · exact ⟨pt.2, by rw [htdec]; exact List.mem_append_right _ (List.mem_cons_self _ _), ht2⟩
        · exact ⟨pb.2, by rw [hbdec]; exact List.mem_append_right _ (List.mem_cons_self _ _), hb2⟩
      · intro o ho
        rw [heq] at ho
        have ho' : o = ⟨pt.2, pb.2⟩ := (Option.some.inj ho).symm
        subst ho'
        refine ⟨⟨ht2, ?_, tl₁, tl₂, htdec, ?_⟩, ⟨hb2, ?_, bl₁, bl₂, hbdec, ?_⟩⟩
        · intro x hx hkx
          have := htmax x hx hkx
          rw [ht1] at this
          exact this
        · intro x hx hkx
          have := htpre x hx hkx
          rw [ht1] at this
          exact this
        · intro x hx hkx
          have := hbmax x hx hkx
          rw [hb1] at this
          exact this
        · intro x hx hkx
          have := hbpre x hx hkx
          rw [hb1] at this
          exact this

/-- Scenario record: slot 0 holds a jacket never worn (`usage_count = 0`). -/
def scenarioJacket : SmartCloset.ClothingItem :=
  ⟨1, 0, "jacket", none, none, 0, "t0", "t0"⟩

/-- Scenario record: slot 1 holds pants worn 5 times. -/
def scenarioPants : SmartCloset.ClothingItem :=
  ⟨2, 1, "pants", none, none, 5, "t0", "t0"⟩

/-- Claim C5: every score decomposes as `base + mood + weather + recency`,
the recency bonus is the step function +0.5 / +0.2 / 0.0 / −0.3 over the
bands 0, 1–2, 3–9, ≥10; and on the scenario inventory {slot 0: unworn
jacket, slot 1: pants worn 5 times} with (happy, formal, cold), the jacket
scores 3.8, the pants score 2.3, and the recommendation is top = jacket,
bottom = pants. -/
theorem score_decomposition_and_scenario :
    (∀ (item : SmartCloset.ClothingItem) (mood occasion weather tod : String),
      SmartCloset.score_item item mood occasion weather tod =
        SmartCloset.base_score_for_type item.type occasion +
        SmartCloset.mood_modifier mood +
        SmartCloset.weather_modifier weather item.type +
        SmartCloset.recency_penalty item.usage_count) ∧
    (∀ u : Nat, SmartCloset.recency_penalty u =
      if u = 0 then 0.5 else if u ≤ 2 then 0.2
      else if u ≤ 9 then 0.0 else -0.3) ∧
    SmartCloset.score_item scenarioJacket "happy" "formal" "cold" "day" = 3.8 ∧
    SmartCloset.score_item scenarioPants "happy" "formal" "cold" "day" = 2.3 ∧
    SmartCloset.recommend_outfit [scenarioJacket, scenarioPants]
      "happy" "formal" "cold" "day" = some ⟨scenarioJacket, scenarioPants⟩ := by
  refine ⟨fun item mood occasion weather tod => rfl, ?_, ?_, ?_, ?_⟩
  · intro u
    unfold SmartCloset.recency_penalty
    split_ifs <;> first | rfl | omega
  · simp [SmartCloset.score_item, SmartCloset.base_score_for_type,
      SmartCloset.mood_modifier, SmartCloset.weather_modifier,
      SmartCloset.recency_penalty, scenarioJacket]
    all_goals norm_num
  · simp [SmartCloset.score_item, SmartCloset.base_score_for_type,
      SmartCloset.mood_modifier, SmartCloset.weather_modifier,
      SmartCloset.recency_penalty, scenarioPants]
    all_goals norm_num
  · simp [SmartCloset.recommend_outfit, SmartCloset.updBest,
      SmartCloset.TOP_TYPES, SmartCloset.BOTTOM_TYPES, scenarioJacket,
      scenarioPants]

/-- Claim C9: `recommend_outfit` is a pure function of the inventory
snapshot and the four inputs (identical runs give identical results by
construction), it never raises, and `time_of_day` has no influence on the
output: runs differing only in `time_of_day` coincide. -/
theorem recommend_outfit_time_of_day_invariant
    (items : List SmartCloset.ClothingItem) (mood occasion weather t1 t2 : String) :
    SmartCloset.recommend_outfit items mood occasion weather t1 =
      SmartCloset.recommend_outfit items mood occasion weather t2 := rfl

/-- Witness for the amended C4: on the scenario inventory the iff's right
side holds concretely, so a recommendation is produced. -/
theorem recommend_outfit_f_best_pair_witness :
    (SmartCloset.recommend_outfit_f [scenarioJacket, scenarioPants]
      "happy" "formal" "cold" "day").isSome = true :=
  (recommend_outfit_f_best_pair [scenarioJacket, scenarioPants]
    "happy" "formal" "cold" "day").1.mpr
    ⟨⟨scenarioJacket, List.mem_cons_self _ _, rfl⟩,
     ⟨scenarioPants, List.mem_cons_of_mem _ (List.mem_cons_self _ _), rfl⟩⟩

/-! ### Evaluation of the binary64 rounding on the counterexample values -/

/-- `Int.log 2` is characterized by the power sandwich. -/
theorem log2_eq_sandwich (q : ℚ) (e : Int) (hq : 0 < q)
    (h1 : (2:ℚ)^e ≤ q) (h2 : q < (2:ℚ)^(e+1)) : Int.log 2 q = e := by
  have hb : (1 : ℕ) < 2 := by norm_num
  have ha : ((2:ℕ):ℚ) ^ Int.log 2 q ≤ q := Int.zpow_log_le_self hb hq
  have hc : q < ((2:ℕ):ℚ) ^ (Int.log 2 q + 1) := Int.lt_zpow_succ_log_self hb q
  push_cast at ha hc
  by_contra hne
  rcases lt_or_gt_of_ne hne with hlt | hgt
  · have h' : Int.log 2 q + 1 ≤ e := by omega
    have := zpow_le_zpow_right₀ (by norm_num : (1:ℚ) ≤ 2) h'
    linarith
  · have h' : e + 1 ≤ Int.log 2 q := by omega
    have := zpow_le_zpow_right₀ (by norm_num : (1:ℚ) ≤ 2) h'
    linarith

/-- A value strictly within half a unit of the integer `n` rounds to `n`
(covers both rounding directions and the exact case; never a tie). -/
theorem roundMantissa_eq (m : ℚ) (n : Int)
    (h1 : (n:ℚ) - 1/2 < m) (h2 : m < (n:ℚ) + 1/2) :
    SmartCloset.roundMantissa m = n := by
  have hk1 : ((⌊m⌋ : Int) : ℚ) ≤ m := Int.floor_le m
  have hk2 : m < (⌊m⌋ : Int) + 1 := Int.lt_floor_add_one m
  have hkn : ⌊m⌋ ≤ n := by
    have h : ((⌊m⌋ : Int) : ℚ) < ((n + 1 : Int) : ℚ) := by push_cast; linarith
    have h' : ⌊m⌋ < n + 1 := by exact_mod_cast h
    omega
  have hkn2 : n - 1 ≤ ⌊m⌋ := by
    have h : ((n - 1 : Int) : ℚ) < ((⌊m⌋ + 1 : Int) : ℚ) := by push_cast; linarith
    have h' : n - 1 < ⌊m⌋ + 1 := by exact_mod_cast h
    omega
  have hcase : ⌊m⌋ = n ∨ ⌊m⌋ = n - 1 := by omega
  rcases hcase with hk | hk
  · unfold SmartCloset.roundMantissa
    rw [hk, if_neg (by rw [hk] at hk1; linarith),
      if_pos (by rw [hk] at hk1; linarith)]
  · unfold SmartCloset.roundMantissa
    rw [hk, if_pos (by push_cast; linarith)]
    omega

/-- Evaluation interface for `roundB64` on a positive value: an exponent
sandwich plus a nearest-mantissa certificate determine the result. -/
theorem roundB64_pos_eval (q : ℚ) (e n : Int) (hq : 0 < q)
    (hl : (2:ℚ)^e ≤ q) (hu : q < (2:ℚ)^(e+1))
    (h1 : (n:ℚ) - 1/2 < q / (2:ℚ)^(e - 52)) (h2 : q / (2:ℚ)^(e-52) < (n:ℚ) + 1/2) :
    SmartCloset.roundB64 q = (n : ℚ) * (2:ℚ)^(e - 52) := by
  have hlog : Int.log 2 q = e := log2_eq_sandwich q e hq hl hu
  unfold SmartCloset.roundB64
  rw [if_neg (ne_of_gt hq), if_neg (not_lt.mpr (le_of_lt hq)), hlog,
    roundMantissa_eq _ n h1 h2]

/-- Binary64 rounding of zero. -/
theorem roundB64_zero : SmartCloset.roundB64 0 = 0 := by
  unfold SmartCloset.roundB64; simp

/-- Binary64 rounding commutes with negation (the format is sign-symmetric). -/
theorem roundB64_neg (q : ℚ) : SmartCloset.roundB64 (-q) = -SmartCloset.roundB64 q := by
  rcases lt_trichotomy q 0 with h | h | h
  · unfold SmartCloset.roundB64
    rw [if_neg (by rw [neg_eq_zero]; exact ne_of_lt h),
      if_neg (by exact not_lt.mpr (le_of_lt (neg_pos.mpr h))),
      if_neg (ne_of_lt h), if_pos h, neg_neg]
  · rw [h, neg_zero, roundB64_zero, neg_zero]
  · unfold SmartCloset.roundB64
    rw [if_neg (by rw [neg_eq_zero]; exact ne_of_gt h),
      if_pos (neg_lt_zero.mpr h), neg_neg, if_neg (ne_of_gt h),
      if_neg (not_lt.mpr (le_of_lt h))]

/-- The literal `1.0` is exactly representable. -/
theorem roundB64_lit_one : SmartCloset.roundB64 (1.0 : ℚ) = 1 := by
  rw [show (1.0:ℚ) = 1 by norm_num]
  rw [roundB64_pos_eval 1 0 4503599627370496 (by norm_num) (by norm_num)
    (by norm_num) (by norm_num) (by norm_num)]
  norm_num

/-- The literal `0.0` is zero. -/
theorem roundB64_lit_zero : SmartCloset.roundB64 (0.0 : ℚ) = 0 := by
  rw [show (0.0:ℚ) = 0 by norm_num, roundB64_zero]

/-- The literal `0.5` is exactly representable. -/
theorem roundB64_lit_half : SmartCloset.roundB64 (0.5 : ℚ) = 1/2 := by
  rw [show (0.5:ℚ) = 1/2 by norm_num]
  rw [roundB64_pos_eval (1/2) (-1) 4503599627370496 (by norm_num) (by norm_num)
    (by norm_num) (by norm_num) (by norm_num)]
  norm_num

/-- The literal `-0.5` is exactly representable. -/
theorem roundB64_lit_neg_half : SmartCloset.roundB64 (-0.5 : ℚ) = -(1/2) := by
  rw [show (-0.5:ℚ) = -(0.5:ℚ) by norm_num, roundB64_neg, roundB64_lit_half]

/-- The literal `0.3` denotes the nearest double, one ulp below 3/10. -/
theorem roundB64_lit_p3 : SmartCloset.roundB64 (0.3 : ℚ) = 5404319552844595/2^54 := by
  rw [show (0.3:ℚ) = 3/10 by norm_num]
  rw [roundB64_pos_eval (3/10) (-2) 5404319552844595 (by norm_num) (by norm_num)
    (by norm_num) (by norm_num) (by norm_num)]
  norm_num

/-- `1.0 + 1.0` is exact. -/
theorem fadd_one_one : SmartCloset.fadd 1 1 = 2 := by
  unfold SmartCloset.fadd
  rw [show (1:ℚ) + 1 = 2 by norm_num]
  rw [roundB64_pos_eval 2 1 4503599627370496 (by norm_num) (by norm_num)
    (by norm_num) (by norm_num) (by norm_num)]
  norm_num

/-- `2.0 + double(0.3)` rounds down to `double(2.3)`. -/
theorem fadd_two_p3 :
    SmartCloset.fadd 2 (5404319552844595/2^54) = 5179139571476070/2^51 := by
  unfold SmartCloset.fadd
  rw [roundB64_pos_eval _ 1 5179139571476070 (by norm_num) (by norm_num)
    (by norm_num) (by norm_num) (by norm_num)]
  norm_num

/-- `1.0 + double(0.3)` rounds up to `double(1.3)`. -/
theorem fadd_one_p3 :
    SmartCloset.fadd 1 (5404319552844595/2^54) = 5854679515581645/2^52 := by
  unfold SmartCloset.fadd
  rw [roundB64_pos_eval _ 0 5854679515581645 (by norm_num) (by norm_num)
    (by norm_num) (by norm_num) (by norm_num)]
  norm_num

/-- `double(2.3) - 0.5` is exact: 1.7999999999999998…, one ulp below 1.8. -/
theorem fadd_23d_neg_half :
    SmartCloset.fadd (5179139571476070/2^51) (-(1/2)) = 8106479329266892/2^52 := by
  unfold SmartCloset.fadd
  rw [roundB64_pos_eval _ 0 8106479329266892 (by norm_num) (by norm_num)
    (by norm_num) (by norm_num) (by norm_num)]
  norm_num

/-- Adding `0.0` to `double(2.3)` changes nothing. -/
theorem fadd_23d_zero :
    SmartCloset.fadd (5179139571476070/2^51) 0 = 5179139571476070/2^51 := by
  unfold SmartCloset.fadd
  rw [roundB64_pos_eval _ 1 5179139571476070 (by norm_num) (by norm_num)
    (by norm_num) (by norm_num) (by norm_num)]
  norm_num

/-- `double(2.3) + 0.5` is exact. -/
theorem fadd_23d_half :
    SmartCloset.fadd (5179139571476070/2^51) (1/2) = 6305039478318694/2^51 := by
  unfold SmartCloset.fadd
  rw [roundB64_pos_eval _ 1 6305039478318694 (by norm_num) (by norm_num)
    (by norm_num) (by norm_num) (by norm_num)]
  norm_num

/-- Adding `0.0` to `double(1.3)` changes nothing. -/
theorem fadd_13d_zero :
    SmartCloset.fadd (5854679515581645/2^52) 0 = 5854679515581645/2^52 := by
  unfold SmartCloset.fadd
  rw [roundB64_pos_eval _ 0 5854679515581645 (by norm_num) (by norm_num)
    (by norm_num) (by norm_num) (by norm_num)]
  norm_num

/-- `double(1.3) + 0.5` is exact: 1.8000000000000000…, one ulp above the
pants score — the crucial inequality behind the tie-break divergence. -/
theorem fadd_13d_half :
    SmartCloset.fadd (5854679515581645/2^52) (1/2) = 8106479329266893/2^52 := by
  unfold SmartCloset.fadd
  rw [roundB64_pos_eval _ 0 8106479329266893 (by norm_num) (by norm_num)
    (by norm_num) (by norm_num) (by norm_num)]
  norm_num

/-- Adding `0.0` to the pants score changes nothing. -/
theorem fadd_18d_zero :
    SmartCloset.fadd (8106479329266892/2^52) 0 = 8106479329266892/2^52 := by
  unfold SmartCloset.fadd
  rw [roundB64_pos_eval _ 0 8106479329266892 (by norm_num) (by norm_num)
    (by norm_num) (by norm_num) (by norm_num)]
  norm_num

/-! ### The tie-break counterexample inventory -/

/-- Counterexample record: slot 0 holds an unworn shirt (the top). -/
def ceShirt : SmartCloset.ClothingItem :=
  ⟨1, 0, "shirt", none, none, 0, "t0", "t0"⟩

/-- Counterexample record: slot 1 holds pants worn 5 times. -/
def cePants : SmartCloset.ClothingItem :=
  ⟨2, 1, "pants", none, none, 5, "t0", "t0"⟩

/-- Counterexample record: slot 2 holds an unworn skirt. -/
def ceSkirt : SmartCloset.ClothingItem :=
  ⟨3, 2, "skirt", none, none, 0, "t0", "t0"⟩

/-- Projection of the shirt's type. -/
theorem ceShirt_type : ceShirt.type = "shirt" := rfl

/-- Projection of the pants' type. -/
theorem cePants_type : cePants.type = "pants" := rfl

/-- Projection of the skirt's type. -/
theorem ceSkirt_type : ceSkirt.type = "skirt" := rfl

/-- Computed (binary64) score of the shirt under (happy, formal, hot):
`((2.0 + 0.3) + 0.0) + 0.5`. -/
theorem score_f_ceShirt :
    SmartCloset.score_item_f ceShirt "happy" "formal" "hot" "day" =
      6305039478318694/2^51 := by
  simp only [SmartCloset.score_item_f, SmartCloset.base_score_for_type_f,
    SmartCloset.mood_modifier_f, SmartCloset.weather_modifier_f,
    SmartCloset.recency_penalty_f, ceShirt, String.reduceEq, reduceIte,
    List.mem_cons, List.mem_singleton, List.mem_nil_iff, or_true, true_or,
    or_false, false_or, and_true, true_and, and_false, false_and, if_true,
    if_false]
  rw [roundB64_lit_one, roundB64_lit_p3, roundB64_lit_zero,
    roundB64_lit_half, fadd_one_one, fadd_two_p3, fadd_23d_zero, fadd_23d_half]

/-- Computed (binary64) score of the pants under (happy, formal, hot):
`((2.0 + 0.3) + (-0.5)) + 0.0 = 1.7999999999999998…`, one ulp below 1.8. -/
theorem score_f_cePants :
    SmartCloset.score_item_f cePants "happy" "formal" "hot" "day" =
      8106479329266892/2^52 := by
  simp only [SmartCloset.score_item_f, SmartCloset.base_score_for_type_f,
    SmartCloset.mood_modifier_f, SmartCloset.weather_modifier_f,
    SmartCloset.recency_penalty_f, cePants, String.reduceEq, reduceIte,
    List.mem_cons, List.mem_singleton, or_true, true_or, or_false, false_or,
    and_true, true_and, and_false, false_and]
  rw [if_neg (by decide), if_neg (by decide), if_pos (by decide),
    roundB64_lit_one, roundB64_lit_p3, roundB64_lit_neg_half,
    roundB64_lit_zero, fadd_one_one, fadd_two_p3, fadd_23d_neg_half,
    fadd_18d_zero]

/-- Computed (binary64) score of the skirt under (happy, formal, hot):
`((1.0 + 0.3) + 0.0) + 0.5 = 1.8000000000000000…`, one ulp above the
pants' computed score although the exact scores tie. -/
theorem score_f_ceSkirt :
    SmartCloset.score_item_f ceSkirt "happy" "formal" "hot" "day" =
      8106479329266893/2^52 := by
  simp only [SmartCloset.score_item_f, SmartCloset.base_score_for_type_f,
    SmartCloset.mood_modifier_f, SmartCloset.weather_modifier_f,
    SmartCloset.recency_penalty_f, ceSkirt, String.reduceEq, reduceIte,
    List.mem_cons, List.mem_singleton, List.mem_nil_iff, or_true, true_or,
    or_false, false_or, and_true, true_and, and_false, false_and, if_true,
    if_false]
  rw [roundB64_lit_one, roundB64_lit_p3, roundB64_lit_zero,
    roundB64_lit_half, fadd_one_p3, fadd_13d_zero, fadd_13d_half]

/-- Claim C4, refuted as stated.  On the inventory {slot 0: shirt, slot 1:
pants worn 5 times, slot 2: unworn skirt} with (happy, formal, hot): the
exact real-valued scores of pants and skirt tie (both 1.8), pants is a
maximal-scoring bottom occurring first in the list ordering, yet the
program — whose float additions round the pants' score one ulp below 1.8
and the skirt's to exactly double(1.8) — returns the later skirt, not the
first-encountered pants. -/
theorem recommend_outfit_tie_break_counterexample :
    SmartCloset.score_item cePants "happy" "formal" "hot" "day" =
      SmartCloset.score_item ceSkirt "happy" "formal" "hot" "day" ∧
    (∀ x ∈ [ceShirt, cePants, ceSkirt],
      SmartCloset.BOTTOM_TYPES.contains x.type = true →
        SmartCloset.score_item x "happy" "formal" "hot" "day" ≤
          SmartCloset.score_item cePants "happy" "formal" "hot" "day") ∧
    SmartCloset.recommend_outfit_f [ceShirt, cePants, ceSkirt]
      "happy" "formal" "hot" "day" = some ⟨ceShirt, ceSkirt⟩ ∧
    ceSkirt ≠ cePants := by
  have hpants : SmartCloset.score_item cePants "happy" "formal" "hot" "day" =
      9/5 := by
    simp [SmartCloset.score_item, SmartCloset.base_score_for_type,
      SmartCloset.mood_modifier, SmartCloset.weather_modifier,
      SmartCloset.recency_penalty, cePants]
    all_goals norm_num
  have hskirt : SmartCloset.score_item ceSkirt "happy" "formal" "hot" "day" =
      9/5 := by
    simp [SmartCloset.score_item, SmartCloset.base_score_for_type,
      SmartCloset.mood_modifier, SmartCloset.weather_modifier,
      SmartCloset.recency_penalty, ceSkirt]
    all_goals norm_num
  refine ⟨by rw [hpants, hskirt], ?_, ?_, by decide⟩
  · intro x hx hbx
    rcases List.mem_cons.mp hx with h | hx
    · subst h
      exact absurd hbx (by decide)
    rcases List.mem_cons.mp hx with h | hx
    · subst h
      exact le_refl _
    rcases List.mem_cons.mp hx with h | hx
    · subst h
      rw [hpants, hskirt]
    · cases hx
  · have kTshirt : SmartCloset.TOP_TYPES.contains ceShirt.type = true := rfl
    have kTpants : SmartCloset.TOP_TYPES.contains cePants.type = false := rfl
    have kTskirt : SmartCloset.TOP_TYPES.contains ceSkirt.type = false := rfl
    have kBshirt : SmartCloset.BOTTOM_TYPES.contains ceShirt.type = false := rfl
    have kBpants : SmartCloset.BOTTOM_TYPES.contains cePants.type = true := rfl
    have kBskirt : SmartCloset.BOTTOM_TYPES.contains ceSkirt.type = true := rfl
    simp only [SmartCloset.recommend_outfit_f, SmartCloset.updBest,
      List.foldl_cons, List.foldl_nil, List.isEmpty_cons, score_f_ceShirt,
      score_f_cePants, score_f_ceSkirt, kTshirt, kTpants, kTskirt, kBshirt,
      kBpants, kBskirt, reduceIte, Bool.false_eq_true, eq_self_iff_true,
      if_true, if_false]
    rw [if_pos (by norm_num :
      (8106479329266893/2^52 : ℚ) > 8106479329266892/2^52)]

end SmartCloset
